import Mathlib

/-!
# The timed magic-protection effect of the entities game service

A shallow embedding of `CModMagicProtectionEffect` (phrase manager, file
`mod_magic_protection_effet.cpp`): the three methods `update`, `removed`,
`activate`, and the persistent-data block of the class.

The methods act on process-wide singletons (`TheDataset`, `PlayerManager`,
`CTickEventHandler`) and on objects reached through pointers.  Here the
singletons are the fields of one explicit `World` value, a `CCharacter *` is
an index into the world's character heap, and every method returns the world
it leaves behind.

Two types are declared in headers outside the sources and are parameters of
the development: the numeric type `V` of a magic-protection value (any ring:
the integers, or a fixed-width type with wrap-around arithmetic) and the bit
width `bits` of the unsigned `TGameCycle`.
-/

namespace Ryzom

/-! ## Data model -/

/-- Row handle of a live entity in the mirror dataset (`TDataSetRow`). -/
abbrev TDataSetRow := Nat

/-- Stable entity identifier (`CEntityId`). -/
abbrev CEntityId := Nat

/-- Game cycle, an unsigned machine integer; its values are below `2 ^ bits`. -/
abbrev TGameCycle := Nat

/-- Tag of `PROTECTION_TYPE::TProtectionType` (the enum is declared outside the sources). -/
abbrev TProtectionType := Nat

/-- A `CCharacter *` that is not null: an index into the character heap. -/
abbrev CharRef := Nat

/-- Sum of two game cycles in the unsigned `bits`-wide type. -/
def TGameCycle.add (bits : Nat) (a b : TGameCycle) : TGameCycle :=
  (a + b) % 2 ^ bits

/-- Difference of two game cycles in the unsigned `bits`-wide type: it wraps
around when `b` exceeds `a`. -/
def TGameCycle.sub (bits : Nat) (a b : TGameCycle) : TGameCycle :=
  (a + (2 ^ bits - b % 2 ^ bits)) % 2 ^ bits

/-- Effect family tags (`EFFECT_FAMILIES::TEffectFamily`); the source names one. -/
inductive TEffectFamily where
  | PowerModMagicProtection
  | Other (tag : Nat)
  deriving DecidableEq, Repr

/-- Timer events; `endEffect` is the `CEndEffectTimerEvent` an effect creates for itself. -/
inductive CTimerEvent where
  | endEffect
  | other (tag : Nat)
  deriving DecidableEq, Repr

/-- Modelled from the spec: `CTimer` is declared outside the sources.  A timer
holds the number of ticks after which it fires and the event it then delivers;
both are absent while nothing is scheduled. -/
structure CTimer where
  remaining : Option TGameCycle
  event : Option CTimerEvent
  deriving DecidableEq, Repr

/-- Modelled from the spec: `CTimer::setRemaining(remaining, event)` replaces
whatever was scheduled by one firing of `event`, `remaining` ticks from now. -/
def CTimer.setRemaining (_t : CTimer) (remaining : TGameCycle) (event : CTimerEvent) : CTimer :=
  { remaining := some remaining, event := some event }

/-- The fields of `CModMagicProtectionEffect` the source file reads or writes
(those of its base `CSTimedEffect` included). -/
structure CModMagicProtectionEffect where
  creatorRowId : TDataSetRow
  creatorEntityId : CEntityId
  targetRowId : TDataSetRow
  family : TEffectFamily
  endDate : TGameCycle
  endTimer : CTimer
  targetDisableTime : TGameCycle
  affectedProtection : TProtectionType
  modifier1 : Int
  modifier2 : Int
  deriving DecidableEq, Repr

/-- The part of `CCharacter` the effect touches: its row, its unclamped magic
protections and its list of active effects. -/
structure CCharacter (V : Type) where
  entityRowId : TDataSetRow
  magicProtection : TProtectionType → V
  sabrinaEffects : List CModMagicProtectionEffect

/-- Modelled from the spec: `CCharacter::getUnclampedMagicProtection` is
declared outside the sources; it is the attribute getter `getAttribute(tag)`. -/
def CCharacter.getUnclampedMagicProtection {V : Type} (c : CCharacter V)
    (t : TProtectionType) : V :=
  c.magicProtection t

/-- Modelled from the spec: `CCharacter::setUnclampedMagicProtection` is
declared outside the sources; it is the attribute setter
`setAttribute(tag, number)`, which stores the number under the tag. -/
def CCharacter.setUnclampedMagicProtection {V : Type} (c : CCharacter V)
    (t : TProtectionType) (v : V) : CCharacter V :=
  { c with magicProtection := fun u => if u = t then v else c.magicProtection u }

/-- Modelled from the spec: `CCharacter::addSabrinaEffect` is declared outside
the sources; the registry operation `add` appends the effect to the entity's
collection of active effects. -/
def CCharacter.addSabrinaEffect {V : Type} (c : CCharacter V)
    (effect : CModMagicProtectionEffect) : CCharacter V :=
  { c with sabrinaEffects := c.sabrinaEffects ++ [effect] }

/-- The singletons the methods consult, and the character objects. -/
structure World (V : Type) where
  /-- The clock, `CTickEventHandler::getGameCycle()`. -/
  gameCycle : TGameCycle
  /-- The dataset, `TheDataset.isAccessible(row)`. -/
  isAccessible : TDataSetRow → Bool
  /-- The dataset, `TheDataset.getEntityId(row)`. -/
  entityIdOfRow : TDataSetRow → CEntityId
  /-- The player manager, `PlayerManager.getChar(row)`; `none` is the null pointer. -/
  charOfRow : TDataSetRow → Option CharRef
  /-- The player manager, `PlayerManager.getChar(entityId)`. -/
  charOfEntity : CEntityId → Option CharRef
  /-- The character objects the pointers designate. -/
  characters : CharRef → CCharacter V

/-- Writing through a `CCharacter *`: the object at `ref` becomes `c`. -/
def World.setCharacter {V : Type} (w : World V) (ref : CharRef) (c : CCharacter V) : World V :=
  { w with characters := fun r => if r = ref then c else w.characters r }

/-- Warnings the methods log with `nlwarning`. -/
inductive Warning where
  | cannotFindTarget (row : TDataSetRow)
  | cannotFindActor
  | failedToAllocate
  deriving DecidableEq, Repr

/-- What `update` leaves behind: the returned flag, the effect and the world. -/
structure UpdateResult (V : Type) where
  stillActive : Bool
  self : CModMagicProtectionEffect
  world : World V

/-- C++ exceptions a method can exit by. -/
inductive CppException where
  | badAlloc
  deriving DecidableEq, Repr

/-- What a `void` method leaves behind: the world, the warnings it logged and,
when it does not return but exits by an exception, that exception. -/
structure VoidResult (V : Type) where
  world : World V
  warnings : List Warning
  thrown : Option CppException := none

namespace CModMagicProtectionEffect

/-! ## The methods -/

/-- `CModMagicProtectionEffect::update(CTimerEvent * event, bool applyEffect)`. -/
def update {V : Type} [Ring V] (self : CModMagicProtectionEffect)
    (_event : Option CTimerEvent) (_applyEffect : Bool) (w : World V) : UpdateResult V :=
  if !w.isAccessible self.targetRowId then
    { stillActive := true
      self := { self with endTimer := self.endTimer.setRemaining 1 CTimerEvent.endEffect }
      world := w }
  else
    match w.charOfRow self.targetRowId with
    | none =>
      { stillActive := true
        self := { self with endTimer := self.endTimer.setRemaining 1 CTimerEvent.endEffect }
        world := w }
    | some player =>
      let p := w.characters player
      { stillActive := false
        self := self
        world := w.setCharacter player
          (p.setUnclampedMagicProtection self.affectedProtection
            (p.getUnclampedMagicProtection self.affectedProtection
              + (self.modifier1 : V) + (self.modifier2 : V))) }

/-- What either early exit of `update` leaves: the end timer set to one
remaining tick with a new end-effect event, the world as it was, and `true`
returned. -/
def retry {V : Type} (self : CModMagicProtectionEffect) (w : World V) : UpdateResult V :=
  { stillActive := true
    self := { self with endTimer := self.endTimer.setRemaining 1 CTimerEvent.endEffect }
    world := w }

/-- `CModMagicProtectionEffect::removed()`. -/
def removed {V : Type} [Ring V] (self : CModMagicProtectionEffect) (w : World V) :
    VoidResult V :=
  match w.charOfRow self.targetRowId with
  | none => { world := w, warnings := [Warning.cannotFindTarget self.targetRowId] }
  | some player =>
    let p := w.characters player
    { world := w.setCharacter player
        (p.setUnclampedMagicProtection self.affectedProtection
          (p.getUnclampedMagicProtection self.affectedProtection
            - (self.modifier1 : V) - (self.modifier2 : V)))
      warnings := [] }

/-- Modelled from the spec: the constructor is declared in the class header,
outside the sources.  It builds the effect bound to the one row id it is
given, with the end cycle, family, protection and modifiers it is given; what
the call does not pass starts out unset, and the scheduling of the expiry of
the new effect, done outside the sources, is not represented. -/
def construct (row : TDataSetRow) (endDate : TGameCycle) (family : TEffectFamily)
    (affectedProtection : TProtectionType) (modifier1 modifier2 : Int) :
    CModMagicProtectionEffect :=
  { creatorRowId := row
    creatorEntityId := 0
    targetRowId := row
    family := family
    endDate := endDate
    endTimer := { remaining := none, event := none }
    targetDisableTime := 0
    affectedProtection := affectedProtection
    modifier1 := modifier1
    modifier2 := modifier2 }

/-- `CModMagicProtectionEffect::activate()`.  `bits` is the width of
`TGameCycle`; `viaFloat m` is the modifier the constructor keeps when handed
`(float)m`; `newSucceeds` tells whether the allocation of line 79 succeeds.
That line is a plain new-expression: when it cannot allocate it throws
`std::bad_alloc` and `activate` is left by that exception; when it returns, the
pointer it gives is not null, so the `if (!effect)` branch below is never
taken. -/
def activate {V : Type} (bits : Nat) (viaFloat : Int → Int) (newSucceeds : Bool)
    (self : CModMagicProtectionEffect) (w : World V) : VoidResult V :=
  match w.charOfEntity self.creatorEntityId with
  | none => { world := w, warnings := [Warning.cannotFindActor] }
  | some actor =>
    if newSucceeds then
      let effect : Option CModMagicProtectionEffect :=
        some (construct (w.characters actor).entityRowId
          (TGameCycle.add bits self.endDate w.gameCycle)
          TEffectFamily.PowerModMagicProtection
          self.affectedProtection
          (viaFloat self.modifier1)
          (viaFloat self.modifier2))
      match effect with
      | none => { world := w, warnings := [Warning.failedToAllocate] }
      | some effect =>
        { world := w.setCharacter actor ((w.characters actor).addSabrinaEffect effect)
          warnings := [] }
    else
      { world := w, warnings := [], thrown := some CppException.badAlloc }

/-! ## The persistent-data block -/

/-- Modelled from the spec: the block of the base class, the first entry of
`PERSISTENT_DATA`, which `CSTimedEffect::store` and `CSTimedEffect::apply`
(outside the sources) write and read.  It holds the duration bookkeeping of a
timed effect: the end date, persisted as the ticks that remain. -/
structure STimedEffectRecord where
  endDate : TGameCycle
  deriving DecidableEq, Repr

/-- The record the `PERSISTENT_DATA` block of the class writes and reads: the
block of the base class, then the fields of the class in the order of the
source. -/
structure PersistentRecord where
  timedEffect : STimedEffectRecord
  creatorEntityId : CEntityId
  targetDisableTime : TGameCycle
  affectedProtection : String
  modifier1 : Int
  modifier2 : Int
  deriving DecidableEq, Repr

/-- The value the block writes for `_TargetDisableTime` at game cycle `now`:
`_TargetDisableTime > now ? _TargetDisableTime - now : 0`. -/
def storeTargetDisableTime (bits : Nat) (targetDisableTime now : TGameCycle) : TGameCycle :=
  if targetDisableTime > now then TGameCycle.sub bits targetDisableTime now else 0

/-- Modelled from the spec: `CSTimedEffect::store` is outside the sources.  An
end cycle is persisted as a relative remaining duration,
`max(endCycle - currentCycle, 0)`. -/
def storeTimedEffect (bits : Nat) (self : CModMagicProtectionEffect) (now : TGameCycle) :
    STimedEffectRecord :=
  { endDate := if self.endDate > now then TGameCycle.sub bits self.endDate now else 0 }

/-- Writing the record: the block of the base class, then the second
expression of each `PROP2` and the field itself for a `PROP`.
`protectionToString` is `PROTECTION_TYPE::toString`. -/
def store {V : Type} (bits : Nat) (protectionToString : TProtectionType → String)
    (self : CModMagicProtectionEffect) (w : World V) : PersistentRecord :=
  { timedEffect := storeTimedEffect bits self w.gameCycle
    creatorEntityId := w.entityIdOfRow self.creatorRowId
    targetDisableTime := storeTargetDisableTime bits self.targetDisableTime w.gameCycle
    affectedProtection := protectionToString self.affectedProtection
    modifier1 := self.modifier1
    modifier2 := self.modifier2 }

/-- What a run of firings leaves behind: the flags `update` returned, in
order, the effect and the world. -/
structure RunResult (V : Type) where
  flags : List Bool
  self : CModMagicProtectionEffect
  world : World V

end CModMagicProtectionEffect

/-- The environment between two firings: the clock advances by one tick and
the dataset reports `row` as accessible or not; characters and the player
manager are left alone. -/
def World.nextTick {V : Type} (bits : Nat) (w : World V) (row : TDataSetRow)
    (accessible : Bool) : World V :=
  { w with
    gameCycle := TGameCycle.add bits w.gameCycle 1
    isAccessible := fun r => if r = row then accessible else w.isAccessible r }

namespace CModMagicProtectionEffect

/-- Fires `update` once on each of consecutive ticks; the list tells, tick by
tick, whether the dataset reports the target row as accessible. -/
def fireOnTicks {V : Type} [Ring V] (bits : Nat) (event : Option CTimerEvent)
    (applyEffect : Bool) :
    List Bool → CModMagicProtectionEffect → World V → RunResult V
  | [], self, w => { flags := [], self := self, world := w }
  | accessible :: rest, self, w =>
    let r := update self event applyEffect (w.nextTick bits self.targetRowId accessible)
    let run := fireOnTicks bits event applyEffect rest r.self r.world
    { run with flags := r.stillActive :: run.flags }

end CModMagicProtectionEffect

/-- The environment between two firings, in general: the clock advances by one
tick, the dataset reports `row` as accessible or not, and the player manager
resolves `row` to `resolved` (a character, or none); the characters are left
alone. -/
def World.nextTickWith {V : Type} (bits : Nat) (w : World V) (row : TDataSetRow)
    (accessible : Bool) (resolved : Option CharRef) : World V :=
  { w with
    gameCycle := TGameCycle.add bits w.gameCycle 1
    isAccessible := fun r => if r = row then accessible else w.isAccessible r
    charOfRow := fun r => if r = row then resolved else w.charOfRow r }

namespace CModMagicProtectionEffect

/-- Fires `update` once on each of consecutive ticks; the list tells, tick by
tick, whether the dataset reports the target row as accessible and what the
player manager resolves it to. -/
def fireOnTicksWith {V : Type} [Ring V] (bits : Nat) (event : Option CTimerEvent)
    (applyEffect : Bool) :
    List (Bool × Option CharRef) → CModMagicProtectionEffect → World V → RunResult V
  | [], self, w => { flags := [], self := self, world := w }
  | tick :: rest, self, w =>
    let r := update self event applyEffect
      (w.nextTickWith bits self.targetRowId tick.1 tick.2)
    let run := fireOnTicksWith bits event applyEffect rest r.self r.world
    { run with flags := r.stillActive :: run.flags }

end CModMagicProtectionEffect

/-! ## Sample states -/

namespace Sample

/-- A character at row 1 whose protections all stand at 10. -/
def hero : CCharacter Int :=
  { entityRowId := 1, magicProtection := fun _ => 10, sabrinaEffects := [] }

/-- A character at row 2 whose protections all stand at 20. -/
def other : CCharacter Int :=
  { entityRowId := 2, magicProtection := fun _ => 20, sabrinaEffects := [] }

/-- Cycle 100; rows 1 and 2 are accessible and resolve to `hero` and `other`,
which are the entities 7 and 8. -/
def world : World Int :=
  { gameCycle := 100
    isAccessible := fun r => r = 1 || r = 2
    entityIdOfRow := fun r => r + 6
    charOfRow := fun r => if r = 1 then some 0 else if r = 2 then some 1 else none
    charOfEntity := fun i => if i = 7 then some 0 else if i = 8 then some 1 else none
    characters := fun ref => if ref = 0 then hero else other }

/-- The sample world with row 1 reported inaccessible by the dataset. -/
def worldInaccessible : World Int :=
  { world with isAccessible := fun r => r = 2 }

/-- The sample world in which the dataset still reports row 1 as accessible
but the player manager finds no character for it. -/
def worldUnresolved : World Int :=
  { world with charOfRow := fun r => if r = 2 then some 1 else none }

/-- The sample world in which entity 7 is not a known player. -/
def worldNoActor : World Int :=
  { world with charOfEntity := fun i => if i = 8 then some 1 else none }

/-- The sample world at the last cycle a 32-bit game cycle can hold. -/
def worldLastCycle : World Int :=
  { world with gameCycle := 4294967295 }

/-- An effect on row 1, created by entity 7: protection 3, modifiers 5 and -2,
duration 10. -/
def effect : CModMagicProtectionEffect :=
  { creatorRowId := 1
    creatorEntityId := 7
    targetRowId := 1
    family := TEffectFamily.PowerModMagicProtection
    endDate := 10
    endTimer := { remaining := none, event := none }
    targetDisableTime := 130
    affectedProtection := 3
    modifier1 := 5
    modifier2 := -2 }

/-- The sample effect with a duration of one tick. -/
def effectOneTick : CModMagicProtectionEffect :=
  { effect with endDate := 1 }

/-- The sample effect aimed at row 2, its creator still being entity 7. -/
def effectOnOther : CModMagicProtectionEffect :=
  { effect with targetRowId := 2 }

/-- An effect that agrees with the sample effect on target row, protection and
modifiers and differs in family, creator, end date and timer. -/
def effectOtherFamily : CModMagicProtectionEffect :=
  { effect with
    family := TEffectFamily.Other 9
    creatorEntityId := 8
    endDate := 50
    endTimer := { remaining := some 4, event := some (CTimerEvent.other 2) } }

/-- The world the sample firing of `update` leaves, once the player manager
no longer lists row 1. -/
def worldAfterLogout : World Int :=
  { (CModMagicProtectionEffect.update effect none true world).world with
    charOfRow := fun r => if r = 2 then some 1 else none }

/-- Names of the protection tags, standing for `PROTECTION_TYPE::toString`. -/
def protectionToString (t : TProtectionType) : String :=
  toString t

end Sample

/-! ## Basic facts about the state operations -/

section Lemmas

variable {V : Type}

theorem World.characters_setCharacter_same (w : World V) (ref : CharRef) (c : CCharacter V) :
    (w.setCharacter ref c).characters ref = c := by
  simp [World.setCharacter]

theorem World.characters_setCharacter_other (w : World V) (ref r : CharRef) (c : CCharacter V)
    (h : r ≠ ref) : (w.setCharacter ref c).characters r = w.characters r := by
  simp [World.setCharacter, h]

theorem CCharacter.get_set_same (c : CCharacter V) (t : TProtectionType) (v : V) :
    (c.setUnclampedMagicProtection t v).getUnclampedMagicProtection t = v := by
  simp [CCharacter.setUnclampedMagicProtection, CCharacter.getUnclampedMagicProtection]

theorem CCharacter.get_set_other (c : CCharacter V) (t u : TProtectionType) (v : V)
    (h : u ≠ t) :
    (c.setUnclampedMagicProtection t v).getUnclampedMagicProtection u
      = c.getUnclampedMagicProtection u := by
  simp [CCharacter.setUnclampedMagicProtection, CCharacter.getUnclampedMagicProtection, h]

theorem CCharacter.set_set (c : CCharacter V) (t : TProtectionType) (v v2 : V) :
    (c.setUnclampedMagicProtection t v).setUnclampedMagicProtection t v2
      = c.setUnclampedMagicProtection t v2 := by
  simp only [CCharacter.setUnclampedMagicProtection, CCharacter.mk.injEq, true_and, and_true]
  funext u
  by_cases h : u = t <;> simp [h]

theorem CCharacter.set_get (c : CCharacter V) (t : TProtectionType) :
    c.setUnclampedMagicProtection t (c.getUnclampedMagicProtection t) = c := by
  cases c
  simp only [CCharacter.setUnclampedMagicProtection, CCharacter.getUnclampedMagicProtection,
    CCharacter.mk.injEq, true_and, and_true]
  funext u
  by_cases h : u = t <;> simp [h]

namespace CModMagicProtectionEffect

variable [Ring V]

theorem update_of_inaccessible (self : CModMagicProtectionEffect) (event : Option CTimerEvent)
    (applyEffect : Bool) (w : World V) (h : w.isAccessible self.targetRowId = false) :
    update self event applyEffect w = retry self w := by
  simp [update, retry, h]

theorem update_of_unresolved (self : CModMagicProtectionEffect) (event : Option CTimerEvent)
    (applyEffect : Bool) (w : World V) (h : w.charOfRow self.targetRowId = none) :
    update self event applyEffect w = retry self w := by
  simp [update, retry, h]

theorem update_of_resolved (self : CModMagicProtectionEffect) (event : Option CTimerEvent)
    (applyEffect : Bool) (w : World V) (player : CharRef)
    (hacc : w.isAccessible self.targetRowId = true)
    (hchar : w.charOfRow self.targetRowId = some player) :
    update self event applyEffect w =
      { stillActive := false
        self := self
        world := w.setCharacter player
          ((w.characters player).setUnclampedMagicProtection self.affectedProtection
            ((w.characters player).getUnclampedMagicProtection self.affectedProtection
              + (self.modifier1 : V) + (self.modifier2 : V))) } := by
  simp [update, hacc, hchar]

theorem update_resolved_effect (self : CModMagicProtectionEffect)
    (event : Option CTimerEvent) (applyEffect : Bool) (w : World V) (player : CharRef)
    (hacc : w.isAccessible self.targetRowId = true)
    (hchar : w.charOfRow self.targetRowId = some player) :
    (update self event applyEffect w).stillActive = false
    ∧ ((update self event applyEffect w).world.characters
          player).getUnclampedMagicProtection self.affectedProtection
        = (w.characters player).getUnclampedMagicProtection self.affectedProtection
          + ((self.modifier1 : V) + (self.modifier2 : V)) := by
  rw [update_of_resolved self event applyEffect w player hacc hchar]
  refine ⟨rfl, ?_⟩
  simp only [World.characters_setCharacter_same, CCharacter.get_set_same]
  rw [add_assoc]

theorem removed_of_unresolved (self : CModMagicProtectionEffect) (w : World V)
    (h : w.charOfRow self.targetRowId = none) :
    removed self w
      = { world := w, warnings := [Warning.cannotFindTarget self.targetRowId] } := by
  simp [removed, h]

theorem removed_of_resolved (self : CModMagicProtectionEffect) (w : World V) (player : CharRef)
    (hchar : w.charOfRow self.targetRowId = some player) :
    removed self w =
      { world := w.setCharacter player
          ((w.characters player).setUnclampedMagicProtection self.affectedProtection
            ((w.characters player).getUnclampedMagicProtection self.affectedProtection
              - (self.modifier1 : V) - (self.modifier2 : V)))
        warnings := [] } := by
  simp [removed, hchar]

end CModMagicProtectionEffect

end Lemmas

/-! ## Runs of firings -/

section Runs

variable {V : Type} [Ring V]

namespace CModMagicProtectionEffect

theorem fireOnTicks_append (bits : Nat) (event : Option CTimerEvent) (applyEffect : Bool)
    (l1 l2 : List Bool) (self : CModMagicProtectionEffect) (w : World V) :
    fireOnTicks bits event applyEffect (l1 ++ l2) self w =
      { fireOnTicks bits event applyEffect l2
          (fireOnTicks bits event applyEffect l1 self w).self
          (fireOnTicks bits event applyEffect l1 self w).world with
        flags := (fireOnTicks bits event applyEffect l1 self w).flags
          ++ (fireOnTicks bits event applyEffect l2
                (fireOnTicks bits event applyEffect l1 self w).self
                (fireOnTicks bits event applyEffect l1 self w).world).flags } := by
  induction l1 generalizing self w with
  | nil => simp [fireOnTicks]
  | cons a rest ih => simp [fireOnTicks, ih]

/-- Firings on ticks where the dataset reports the target row as inaccessible
all return true and leave the characters, the player manager and the fields of
the effect that `update` reads as they were. -/
theorem fireOnTicks_inaccessible (bits : Nat) (event : Option CTimerEvent)
    (applyEffect : Bool) (k : Nat) (self : CModMagicProtectionEffect) (w : World V) :
    (fireOnTicks bits event applyEffect (List.replicate k false) self w).flags
        = List.replicate k true
    ∧ (fireOnTicks bits event applyEffect (List.replicate k false) self w).world.characters
        = w.characters
    ∧ (fireOnTicks bits event applyEffect (List.replicate k false) self w).world.charOfRow
        = w.charOfRow
    ∧ (fireOnTicks bits event applyEffect (List.replicate k false) self w).self.targetRowId
        = self.targetRowId
    ∧ (fireOnTicks bits event applyEffect
          (List.replicate k false) self w).self.affectedProtection
        = self.affectedProtection
    ∧ (fireOnTicks bits event applyEffect (List.replicate k false) self w).self.modifier1
        = self.modifier1
    ∧ (fireOnTicks bits event applyEffect (List.replicate k false) self w).self.modifier2
        = self.modifier2 := by
  induction k generalizing self w with
  | zero => simp [fireOnTicks]
  | succ k ih =>
    have hacc : (w.nextTick bits self.targetRowId false).isAccessible self.targetRowId
        = false := by
      simp [World.nextTick]
    have hstep := update_of_inaccessible self event applyEffect
      (w.nextTick bits self.targetRowId false) hacc
    have h := ih (retry self (w.nextTick bits self.targetRowId false)).self
      (retry self (w.nextTick bits self.targetRowId false)).world
    simp only [List.replicate_succ, fireOnTicks, hstep]
    refine ⟨?_, ?_, ?_, ?_, ?_, ?_, ?_⟩
    · rw [h.1]; rfl
    · rw [h.2.1]; rfl
    · rw [h.2.2.1]; rfl
    · rw [h.2.2.2.1]; rfl
    · rw [h.2.2.2.2.1]; rfl
    · rw [h.2.2.2.2.2.1]; rfl
    · rw [h.2.2.2.2.2.2]; rfl

theorem update_targetRowId (self : CModMagicProtectionEffect) (event : Option CTimerEvent)
    (applyEffect : Bool) (w : World V) :
    (update self event applyEffect w).self.targetRowId = self.targetRowId := by
  unfold update
  cases w.isAccessible self.targetRowId <;> cases w.charOfRow self.targetRowId <;> rfl

theorem update_charOfRow (self : CModMagicProtectionEffect) (event : Option CTimerEvent)
    (applyEffect : Bool) (w : World V) :
    (update self event applyEffect w).world.charOfRow = w.charOfRow := by
  unfold update
  cases w.isAccessible self.targetRowId <;> cases w.charOfRow self.targetRowId <;> rfl

/-- A run in which only the accessibility of the target row changes is the
run in which, on every tick, the player manager resolves the row to what it
resolved it to at the start. -/
theorem fireOnTicks_eq_fireOnTicksWith (bits : Nat) (event : Option CTimerEvent)
    (applyEffect : Bool) (flags : List Bool) (self : CModMagicProtectionEffect)
    (w : World V) :
    fireOnTicks bits event applyEffect flags self w
      = fireOnTicksWith bits event applyEffect
          (flags.map (fun accessible => (accessible, w.charOfRow self.targetRowId)))
          self w := by
  induction flags generalizing self w with
  | nil => rfl
  | cons accessible rest ih =>
    have hsame : w.nextTickWith bits self.targetRowId accessible
        (w.charOfRow self.targetRowId) = w.nextTick bits self.targetRowId accessible := by
      simp only [World.nextTickWith, World.nextTick]
      congr 1
      funext r
      by_cases hr : r = self.targetRowId
      · simp [hr]
      · simp [hr]
    simp only [List.map_cons, fireOnTicks, fireOnTicksWith, hsame]
    rw [ih, update_targetRowId, update_charOfRow]
    rfl

theorem fireOnTicksWith_append (bits : Nat) (event : Option CTimerEvent)
    (applyEffect : Bool) (l1 l2 : List (Bool × Option CharRef))
    (self : CModMagicProtectionEffect) (w : World V) :
    fireOnTicksWith bits event applyEffect (l1 ++ l2) self w =
      { fireOnTicksWith bits event applyEffect l2
          (fireOnTicksWith bits event applyEffect l1 self w).self
          (fireOnTicksWith bits event applyEffect l1 self w).world with
        flags := (fireOnTicksWith bits event applyEffect l1 self w).flags
          ++ (fireOnTicksWith bits event applyEffect l2
                (fireOnTicksWith bits event applyEffect l1 self w).self
                (fireOnTicksWith bits event applyEffect l1 self w).world).flags } := by
  induction l1 generalizing self w with
  | nil => simp [fireOnTicksWith]
  | cons a rest ih => simp [fireOnTicksWith, ih]

/-- Firings on ticks where the dataset reports the target row as inaccessible,
whatever the player manager resolves it to on each, all return true and leave
the characters and the fields of the effect that `update` reads as they
were. -/
theorem fireOnTicksWith_inaccessible (bits : Nat) (event : Option CTimerEvent)
    (applyEffect : Bool) (retries : List (Option CharRef))
    (self : CModMagicProtectionEffect) (w : World V) :
    (fireOnTicksWith bits event applyEffect
        (retries.map (fun resolved => (false, resolved))) self w).flags
        = List.replicate retries.length true
    ∧ (fireOnTicksWith bits event applyEffect
        (retries.map (fun resolved => (false, resolved))) self w).world.characters
        = w.characters
    ∧ (fireOnTicksWith bits event applyEffect
        (retries.map (fun resolved => (false, resolved))) self w).self.targetRowId
        = self.targetRowId
    ∧ (fireOnTicksWith bits event applyEffect
        (retries.map (fun resolved => (false, resolved))) self w).self.affectedProtection
        = self.affectedProtection
    ∧ (fireOnTicksWith bits event applyEffect
        (retries.map (fun resolved => (false, resolved))) self w).self.modifier1
        = self.modifier1
    ∧ (fireOnTicksWith bits event applyEffect
        (retries.map (fun resolved => (false, resolved))) self w).self.modifier2
        = self.modifier2 := by
  induction retries generalizing self w with
  | nil => simp [fireOnTicksWith]
  | cons resolved rest ih =>
    have hacc : (w.nextTickWith bits self.targetRowId false resolved).isAccessible
        self.targetRowId = false := by
      simp [World.nextTickWith]
    have hstep := update_of_inaccessible self event applyEffect
      (w.nextTickWith bits self.targetRowId false resolved) hacc
    have h := ih (retry self (w.nextTickWith bits self.targetRowId false resolved)).self
      (retry self (w.nextTickWith bits self.targetRowId false resolved)).world
    simp only [List.map_cons, List.length_cons, List.replicate_succ, fireOnTicksWith, hstep]
    refine ⟨?_, ?_, ?_, ?_, ?_, ?_⟩
    · rw [h.1]; rfl
    · rw [h.2.1]; rfl
    · rw [h.2.2.1]; rfl
    · rw [h.2.2.2.1]; rfl
    · rw [h.2.2.2.2.1]; rfl
    · rw [h.2.2.2.2.2]; rfl

end CModMagicProtectionEffect

end Runs

/-! ## Game-cycle arithmetic -/

theorem TGameCycle.sub_of_lt (bits : Nat) (a b : Nat) (ha : a < 2 ^ bits) (hb : b < 2 ^ bits)
    (h : b < a) : TGameCycle.sub bits a b = a - b := by
  unfold TGameCycle.sub
  rw [Nat.mod_eq_of_lt hb]
  generalize 2 ^ bits = m at ha hb ⊢
  have hsum : a + (m - b) = (a - b) + m := by omega
  rw [hsum, Nat.add_mod_right, Nat.mod_eq_of_lt (by omega)]

theorem TGameCycle.add_of_lt (bits : Nat) (a b : Nat) (h : a + b < 2 ^ bits) :
    TGameCycle.add bits a b = a + b := by
  unfold TGameCycle.add
  exact Nat.mod_eq_of_lt h

theorem CModMagicProtectionEffect.storeTargetDisableTime_eq (bits : Nat) (e c : Nat)
    (he : e < 2 ^ bits) (hc : c < 2 ^ bits) :
    CModMagicProtectionEffect.storeTargetDisableTime bits e c
      = (if e > c then e - c else 0) := by
  unfold CModMagicProtectionEffect.storeTargetDisableTime
  by_cases hgt : e > c
  · rw [if_pos hgt, if_pos hgt, TGameCycle.sub_of_lt bits e c he hc hgt]
  · rw [if_neg hgt, if_neg hgt]

theorem CModMagicProtectionEffect.storeTargetDisableTime_eq_max (bits : Nat) (e c : Nat)
    (he : e < 2 ^ bits) (hc : c < 2 ^ bits) :
    ((CModMagicProtectionEffect.storeTargetDisableTime bits e c : Nat) : Int)
      = max ((e : Int) - (c : Int)) 0 := by
  rw [CModMagicProtectionEffect.storeTargetDisableTime_eq bits e c he hc]
  by_cases hgt : e > c
  · rw [if_pos hgt, max_eq_left (by omega)]
    omega
  · rw [if_neg hgt, max_eq_right (by omega)]
    rfl

/-! ## The outcome of `activate` -/

theorem CModMagicProtectionEffect.activate_of_success {V : Type} (bits : Nat)
    (viaFloat : Int → Int) (self : CModMagicProtectionEffect) (w : World V) (actor : CharRef)
    (hactor : w.charOfEntity self.creatorEntityId = some actor) :
    CModMagicProtectionEffect.activate bits viaFloat true self w =
      { world := w.setCharacter actor ((w.characters actor).addSabrinaEffect
          (CModMagicProtectionEffect.construct (w.characters actor).entityRowId
            (TGameCycle.add bits self.endDate w.gameCycle)
            TEffectFamily.PowerModMagicProtection
            self.affectedProtection
            (viaFloat self.modifier1)
            (viaFloat self.modifier2)))
        warnings := [] } := by
  simp [CModMagicProtectionEffect.activate, hactor]

/-! ## The claims -/

open CModMagicProtectionEffect

/-- C1: let the target row be accessible and resolve to a character when
`update` fires, and let it resolve to the same character, with the characters
as the firing left them, when `removed()` runs.  Then one firing of `update`
followed by one `removed()` leaves the affected protection at the value it had
before the firing, and every character is as it was before the firing. -/
theorem C1_update_then_removed_restores {V : Type} [Ring V]
    (self : CModMagicProtectionEffect) (event : Option CTimerEvent) (applyEffect : Bool)
    (w w2 : World V) (player : CharRef)
    (hacc : w.isAccessible self.targetRowId = true)
    (hchar : w.charOfRow self.targetRowId = some player)
    (hkept : w2.characters = (update self event applyEffect w).world.characters)
    (hchar2 : w2.charOfRow self.targetRowId = some player) :
    ((removed (update self event applyEffect w).self w2).world.characters
        player).getUnclampedMagicProtection self.affectedProtection
      = (w.characters player).getUnclampedMagicProtection self.affectedProtection
    ∧ (removed (update self event applyEffect w).self w2).world.characters
      = w.characters := by
  have hchars : (removed (update self event applyEffect w).self w2).world.characters
      = w.characters := by
    rw [update_of_resolved self event applyEffect w player hacc hchar] at hkept ⊢
    rw [removed_of_resolved _ _ player hchar2]
    simp only [World.setCharacter, hkept, if_true, CCharacter.set_set,
      CCharacter.get_set_same]
    have hval : (w.characters player).getUnclampedMagicProtection self.affectedProtection
        + (self.modifier1 : V) + (self.modifier2 : V) - (self.modifier1 : V)
        - (self.modifier2 : V)
        = (w.characters player).getUnclampedMagicProtection self.affectedProtection := by
      abel
    rw [hval, CCharacter.set_get]
    funext r
    by_cases hr : r = player
    · simp [hr]
    · simp [hr]
  exact ⟨by rw [hchars], hchars⟩

/-- C1 at the sample state: modifiers 5 and -2 on a protection of 10 give 13
after the firing and 10 again after `removed()`. -/
theorem C1_witness :
    Sample.world.isAccessible Sample.effect.targetRowId = true
    ∧ Sample.world.charOfRow Sample.effect.targetRowId = some 0
    ∧ (update Sample.effect none true Sample.world).world.charOfRow
        Sample.effect.targetRowId = some 0
    ∧ ((update Sample.effect none true Sample.world).world.characters
          0).getUnclampedMagicProtection 3 = 13
    ∧ ((removed (update Sample.effect none true Sample.world).self
          (update Sample.effect none true Sample.world).world).world.characters
            0).getUnclampedMagicProtection 3 = 10 :=
  ⟨by decide, by decide, by decide, by decide,
    (C1_update_then_removed_restores Sample.effect none true Sample.world
      (update Sample.effect none true Sample.world).world 0
      (by decide) (by decide) rfl (by decide)).1⟩

/-- C2, as the code has it: when the dataset reports the target row as
accessible and the player manager resolves it to a character, `update` adds
`modifier1 + modifier2` to that character's affected protection and returns
false; the other protections of the character, every other character and the
effect itself are left as they were. -/
theorem C2_update_applies_when_resolved {V : Type} [Ring V]
    (self : CModMagicProtectionEffect) (event : Option CTimerEvent) (applyEffect : Bool)
    (w : World V) (player : CharRef)
    (hacc : w.isAccessible self.targetRowId = true)
    (hchar : w.charOfRow self.targetRowId = some player) :
    (update self event applyEffect w).stillActive = false
    ∧ ((update self event applyEffect w).world.characters
          player).getUnclampedMagicProtection self.affectedProtection
        = (w.characters player).getUnclampedMagicProtection self.affectedProtection
          + ((self.modifier1 : V) + (self.modifier2 : V))
    ∧ (∀ t, t ≠ self.affectedProtection →
        ((update self event applyEffect w).world.characters
            player).getUnclampedMagicProtection t
          = (w.characters player).getUnclampedMagicProtection t)
    ∧ (∀ r, r ≠ player →
        (update self event applyEffect w).world.characters r = w.characters r)
    ∧ (update self event applyEffect w).self = self := by
  rw [update_of_resolved self event applyEffect w player hacc hchar]
  refine ⟨rfl, ?_, ?_, ?_, rfl⟩
  · simp only [World.characters_setCharacter_same, CCharacter.get_set_same]
    rw [add_assoc]
  · intro t ht
    simp only [World.characters_setCharacter_same]
    exact CCharacter.get_set_other _ _ _ _ ht
  · intro r hr
    exact World.characters_setCharacter_other _ _ _ _ hr

/-- C2 at the sample state: the protection goes from 10 to 13 and the firing
returns false. -/
theorem C2_witness :
    Sample.world.isAccessible Sample.effect.targetRowId = true
    ∧ Sample.world.charOfRow Sample.effect.targetRowId = some 0
    ∧ (update Sample.effect none true Sample.world).stillActive = false
    ∧ ((update Sample.effect none true Sample.world).world.characters
          0).getUnclampedMagicProtection 3 = 10 + (5 + -2) :=
  ⟨by decide, by decide,
    (C2_update_applies_when_resolved Sample.effect none true Sample.world 0
      (by decide) (by decide)).1,
    (C2_update_applies_when_resolved Sample.effect none true Sample.world 0
      (by decide) (by decide)).2.1⟩

/-- C2 as stated fails: in a state where the dataset reports the target row as
accessible but the player manager finds no character for it, `update` returns
true and leaves the world, the protection of 10 included, as it was. -/
theorem C2_counterexample :
    Sample.worldUnresolved.isAccessible Sample.effect.targetRowId = true
    ∧ (update Sample.effect none true Sample.worldUnresolved).stillActive = true
    ∧ (update Sample.effect none true Sample.worldUnresolved).world = Sample.worldUnresolved
    ∧ ((update Sample.effect none true Sample.worldUnresolved).world.characters
          0).getUnclampedMagicProtection 3 = 10 :=
  ⟨by decide, by decide, rfl, by decide⟩

/-- C3: when the dataset reports the target row as not accessible, `update`
leaves the whole world as it was (so no attribute of any entity changes), sets
the end timer of the effect to one remaining tick with a new end-effect event,
touches no other field of the effect, and returns true. -/
theorem C3_update_retries_when_inaccessible {V : Type} [Ring V]
    (self : CModMagicProtectionEffect) (event : Option CTimerEvent) (applyEffect : Bool)
    (w : World V)
    (hacc : w.isAccessible self.targetRowId = false) :
    (update self event applyEffect w).stillActive = true
    ∧ (update self event applyEffect w).world = w
    ∧ (update self event applyEffect w).self.endTimer.remaining = some 1
    ∧ (update self event applyEffect w).self.endTimer.event = some CTimerEvent.endEffect
    ∧ (update self event applyEffect w).self
        = { self with endTimer := (update self event applyEffect w).self.endTimer } := by
  rw [update_of_inaccessible self event applyEffect w hacc]
  exact ⟨rfl, rfl, rfl, rfl, rfl⟩

/-- C3 at the sample state with row 1 inaccessible. -/
theorem C3_witness :
    Sample.worldInaccessible.isAccessible Sample.effect.targetRowId = false
    ∧ (update Sample.effect none true Sample.worldInaccessible).stillActive = true
    ∧ (update Sample.effect none true Sample.worldInaccessible).world
        = Sample.worldInaccessible
    ∧ (update Sample.effect none true Sample.worldInaccessible).self.endTimer.remaining
        = some 1 :=
  ⟨by decide,
    (C3_update_retries_when_inaccessible Sample.effect none true Sample.worldInaccessible
      (by decide)).1,
    (C3_update_retries_when_inaccessible Sample.effect none true Sample.worldInaccessible
      (by decide)).2.1,
    (C3_update_retries_when_inaccessible Sample.effect none true Sample.worldInaccessible
      (by decide)).2.2.1⟩

/-- C4, as the code has it: let `update` fire on `N` consecutive ticks on
which the dataset reports the target row as inaccessible, the player manager
resolving the row to anything or nothing on each of them (`retries` lists what
it resolves to, `N` is its length), and then once on a tick on which the row
is accessible and the player manager resolves it to a character.  After each
of the first `N` firings every firing so far has returned true and no
character has changed, and after the last firing, which returns false, the
affected protection is its original value plus `modifier1 + modifier2`, added
once. -/
theorem C4_applied_once_after_retries {V : Type} [Ring V] (bits : Nat)
    (event : Option CTimerEvent) (applyEffect : Bool)
    (self : CModMagicProtectionEffect) (w : World V) (player : CharRef)
    (retries : List (Option CharRef)) :
    (∀ k, k ≤ retries.length →
      (fireOnTicksWith bits event applyEffect
          ((retries.take k).map (fun resolved => (false, resolved))) self w).flags
          = List.replicate k true
      ∧ (fireOnTicksWith bits event applyEffect
          ((retries.take k).map (fun resolved => (false, resolved))) self w).world.characters
          = w.characters)
    ∧ (fireOnTicksWith bits event applyEffect
          (retries.map (fun resolved => (false, resolved)) ++ [(true, some player)])
          self w).flags
        = List.replicate retries.length true ++ [false]
    ∧ ((fireOnTicksWith bits event applyEffect
          (retries.map (fun resolved => (false, resolved)) ++ [(true, some player)])
          self w).world.characters
            player).getUnclampedMagicProtection self.affectedProtection
        = (w.characters player).getUnclampedMagicProtection self.affectedProtection
          + ((self.modifier1 : V) + (self.modifier2 : V)) := by
  refine ⟨?_, ?_⟩
  · intro k hk
    have h := fireOnTicksWith_inaccessible bits event applyEffect (retries.take k) self w
    rw [List.length_take, Nat.min_eq_left hk] at h
    exact ⟨h.1, h.2.1⟩
  obtain ⟨hflags, hchars, htarget, hprot, hm1, hm2⟩ :=
    fireOnTicksWith_inaccessible bits event applyEffect retries self w
  have hacc :
      (((fireOnTicksWith bits event applyEffect
          (retries.map (fun resolved => (false, resolved))) self w).world).nextTickWith
        bits (fireOnTicksWith bits event applyEffect
          (retries.map (fun resolved => (false, resolved))) self w).self.targetRowId
        true (some player)).isAccessible
        (fireOnTicksWith bits event applyEffect
          (retries.map (fun resolved => (false, resolved))) self w).self.targetRowId
        = true := by
    simp [World.nextTickWith]
  have hres :
      (((fireOnTicksWith bits event applyEffect
          (retries.map (fun resolved => (false, resolved))) self w).world).nextTickWith
        bits (fireOnTicksWith bits event applyEffect
          (retries.map (fun resolved => (false, resolved))) self w).self.targetRowId
        true (some player)).charOfRow
        (fireOnTicksWith bits event applyEffect
          (retries.map (fun resolved => (false, resolved))) self w).self.targetRowId
        = some player := by
    simp [World.nextTickWith]
  have hlast := update_resolved_effect (fireOnTicksWith bits event applyEffect
    (retries.map (fun resolved => (false, resolved))) self w).self event applyEffect _
    player hacc hres
  rw [fireOnTicksWith_append]
  simp only [fireOnTicksWith, hflags]
  refine ⟨?_, ?_⟩
  · rw [hlast.1]
  · have hvalue := hlast.2
    rw [hprot, hm1, hm2] at hvalue
    rw [hvalue]
    simp only [World.nextTickWith, hchars]

/-- C4 at the sample state: row 1 is inaccessible and unknown to the player
manager on two ticks, then accessible and resolved; the flags are true, true,
false, the protection is still 10 after the two retries and ends at 13, that
is 10 plus 3 once. -/
theorem C4_witness :
    (fireOnTicksWith 32 none true [(false, none), (false, none), (true, some 0)]
        Sample.effect Sample.world).flags = [true, true, false]
    ∧ ((fireOnTicksWith 32 none true [(false, none), (false, none)]
          Sample.effect Sample.world).world.characters 0).getUnclampedMagicProtection 3
        = 10
    ∧ ((fireOnTicksWith 32 none true [(false, none), (false, none), (true, some 0)]
          Sample.effect Sample.world).world.characters 0).getUnclampedMagicProtection 3
        = 13 :=
  ⟨(C4_applied_once_after_retries 32 none true Sample.effect Sample.world 0
      [none, none]).2.1,
    by decide,
    (C4_applied_once_after_retries 32 none true Sample.effect Sample.world 0
      [none, none]).2.2⟩

/-- C4 as stated fails: after two inaccessible ticks, on a last tick where the
target row is accessible but unknown to the player manager, the firing returns
true instead of false and the protection stays at 10. -/
theorem C4_counterexample :
    (fireOnTicksWith 32 none true [(false, none), (false, none), (true, none)]
        Sample.effect Sample.world).flags = [true, true, true]
    ∧ (fireOnTicksWith 32 none true [(false, none), (false, none), (true, none)]
        Sample.effect Sample.world).world.isAccessible Sample.effect.targetRowId = true
    ∧ (fireOnTicksWith 32 none true [(false, none), (false, none), (true, none)]
        Sample.effect Sample.world).world.charOfRow Sample.effect.targetRowId = none
    ∧ ((fireOnTicksWith 32 none true [(false, none), (false, none), (true, none)]
          Sample.effect Sample.world).world.characters 0).getUnclampedMagicProtection 3
        = 10 :=
  ⟨by decide, by decide, by decide, by decide⟩

/-- C5: when the player manager cannot resolve the target row at the time
`removed()` runs, `removed()` leaves the whole world as it was, so no attribute
of any entity changes.  In particular, if an earlier firing of `update`
applied the modifiers in a world `w` and the characters are since unchanged,
the affected protection is still its baseline plus `modifier1 + modifier2`
after `removed()`. -/
theorem C5_removed_unresolved_changes_nothing {V : Type} [Ring V]
    (self : CModMagicProtectionEffect) (w2 : World V)
    (hgone : w2.charOfRow self.targetRowId = none) :
    (removed self w2).world = w2
    ∧ ∀ (w : World V) (event : Option CTimerEvent) (applyEffect : Bool) (player : CharRef),
        w.isAccessible self.targetRowId = true →
        w.charOfRow self.targetRowId = some player →
        w2.characters = (update self event applyEffect w).world.characters →
        ((removed self w2).world.characters player).getUnclampedMagicProtection
            self.affectedProtection
          = (w.characters player).getUnclampedMagicProtection self.affectedProtection
            + ((self.modifier1 : V) + (self.modifier2 : V)) := by
  rw [removed_of_unresolved self w2 hgone]
  refine ⟨rfl, ?_⟩
  intro w event applyEffect player hacc hchar hsame
  simp only [hsame]
  exact (update_resolved_effect self event applyEffect w player hacc hchar).2

/-- C5 at the sample state: the firing raised the protection from 10 to 13,
row 1 then left the player manager, and `removed()` leaves the 13 in place. -/
theorem C5_witness :
    Sample.worldAfterLogout.charOfRow Sample.effect.targetRowId = none
    ∧ (removed Sample.effect Sample.worldAfterLogout).world = Sample.worldAfterLogout
    ∧ ((removed Sample.effect Sample.worldAfterLogout).world.characters
          0).getUnclampedMagicProtection 3 = 10 + (5 + -2) :=
  ⟨by decide,
    (C5_removed_unresolved_changes_nothing Sample.effect Sample.worldAfterLogout
      (by decide)).1,
    (C5_removed_unresolved_changes_nothing Sample.effect Sample.worldAfterLogout
      (by decide)).2 Sample.world none true 0 (by decide) (by decide) rfl⟩

/-- C7: for game cycles `E` (held by the effect) and `C` (the clock) of the
unsigned `bits`-wide type, the value written to the record is `E - C` when
`E > C` and 0 otherwise, that is `max (E - C) 0` over the integers; the
unsigned subtraction is only evaluated when `E > C`, where it gives the exact
difference and does not wrap. -/
theorem C7_stored_remaining_is_clamped_difference {V : Type} (bits : Nat)
    (protectionToString : TProtectionType → String)
    (self : CModMagicProtectionEffect) (w : World V)
    (hE : self.targetDisableTime < 2 ^ bits) (hC : w.gameCycle < 2 ^ bits) :
    (store bits protectionToString self w).targetDisableTime
        = (if self.targetDisableTime > w.gameCycle
            then self.targetDisableTime - w.gameCycle else 0)
    ∧ (((store bits protectionToString self w).targetDisableTime : Nat) : Int)
        = max ((self.targetDisableTime : Int) - (w.gameCycle : Int)) 0
    ∧ (self.targetDisableTime > w.gameCycle →
        ((TGameCycle.sub bits self.targetDisableTime w.gameCycle : Nat) : Int)
          = (self.targetDisableTime : Int) - (w.gameCycle : Int)) := by
  have hstored : (store bits protectionToString self w).targetDisableTime
      = storeTargetDisableTime bits self.targetDisableTime w.gameCycle := rfl
  rw [hstored]
  exact ⟨storeTargetDisableTime_eq bits _ _ hE hC,
    storeTargetDisableTime_eq_max bits _ _ hE hC,
    fun hgt => by
      rw [TGameCycle.sub_of_lt bits _ _ hE hC hgt]
      exact Int.ofNat_sub (Nat.le_of_lt hgt)⟩

/-- C7 at the sample state, 32 bits wide: the field holds 130 at cycle 100 and
30 is written. -/
theorem C7_witness :
    Sample.effect.targetDisableTime < 2 ^ 32
    ∧ Sample.world.gameCycle < 2 ^ 32
    ∧ (store 32 Sample.protectionToString Sample.effect Sample.world).targetDisableTime
        = 30 :=
  ⟨by decide, by decide,
    (C7_stored_remaining_is_clamped_difference 32 Sample.protectionToString Sample.effect
      Sample.world (by decide) (by decide)).1⟩

/-- C8, as the code has it: the effect a successful `activate()` constructs
and appends to the actor's list has as end cycle the sum of the clock `C` and
of the duration `D` held by the activating effect, formed in the unsigned
`bits`-wide game-cycle type: it is `(C + D) mod 2 ^ bits`, which is `C + D`
whenever that sum fits the type. -/
theorem C8_activate_end_cycle {V : Type} (bits : Nat) (viaFloat : Int → Int)
    (self : CModMagicProtectionEffect) (w : World V) (actor : CharRef)
    (hactor : w.charOfEntity self.creatorEntityId = some actor) :
    ∃ effect : CModMagicProtectionEffect,
      ((activate bits viaFloat true self w).world.characters actor).sabrinaEffects
          = (w.characters actor).sabrinaEffects ++ [effect]
      ∧ effect.endDate = (w.gameCycle + self.endDate) % 2 ^ bits
      ∧ (w.gameCycle + self.endDate < 2 ^ bits →
          effect.endDate = w.gameCycle + self.endDate) := by
  rw [activate_of_success bits viaFloat self w actor hactor]
  refine ⟨construct (w.characters actor).entityRowId
    (TGameCycle.add bits self.endDate w.gameCycle) TEffectFamily.PowerModMagicProtection
    self.affectedProtection (viaFloat self.modifier1) (viaFloat self.modifier2), ?_, ?_, ?_⟩
  · simp only [World.characters_setCharacter_same, CCharacter.addSabrinaEffect]
  · show TGameCycle.add bits self.endDate w.gameCycle = _
    unfold TGameCycle.add
    rw [Nat.add_comm]
  · intro hfits
    show TGameCycle.add bits self.endDate w.gameCycle = _
    rw [TGameCycle.add_of_lt bits _ _ (by rw [Nat.add_comm]; exact hfits), Nat.add_comm]

/-- C8 at the sample state, 32 bits wide: duration 10 activated at cycle 100
gives the one effect on the actor's list the end cycle 110. -/
theorem C8_witness :
    Sample.world.charOfEntity Sample.effect.creatorEntityId = some 0
    ∧ ∃ effect : CModMagicProtectionEffect,
        ((activate 32 id true Sample.effect Sample.world).world.characters 0).sabrinaEffects
            = [effect]
        ∧ effect.endDate = 110 := by
  refine ⟨by decide, ?_⟩
  obtain ⟨effect, hlist, hend, _⟩ :=
    C8_activate_end_cycle 32 id Sample.effect Sample.world 0 (by decide)
  exact ⟨effect, hlist, hend⟩

/-- C8 as stated fails: with a 32-bit game cycle, a duration of 1 activated at
cycle 4294967295 gives the constructed effect the end cycle 0, while cycle
plus duration is 4294967296. -/
theorem C8_counterexample :
    Sample.worldLastCycle.gameCycle = 4294967295
    ∧ Sample.effectOneTick.endDate = 1
    ∧ ((activate 32 id true Sample.effectOneTick
          Sample.worldLastCycle).world.characters 0).sabrinaEffects.map
            (fun effect => effect.endDate) = [0]
    ∧ Sample.worldLastCycle.gameCycle + Sample.effectOneTick.endDate = 4294967296 :=
  ⟨by decide, by decide, by decide, by decide⟩

/-- C9, as the code has it: a successful `activate()` binds the effect it
constructs to the row id of the actor, the character the player manager
resolves from the creator entity id of the activating effect, and appends it
to the active-effect list of that character; every other character, hence
every other list, is left as it was.  The target row id of the activating
effect is not consulted. -/
theorem C9_activate_binds_and_registers_on_actor {V : Type} (bits : Nat)
    (viaFloat : Int → Int) (self : CModMagicProtectionEffect) (w : World V) (actor : CharRef)
    (hactor : w.charOfEntity self.creatorEntityId = some actor) :
    ∃ effect : CModMagicProtectionEffect,
      ((activate bits viaFloat true self w).world.characters actor).sabrinaEffects
          = (w.characters actor).sabrinaEffects ++ [effect]
      ∧ effect.targetRowId = (w.characters actor).entityRowId
      ∧ (∀ r, r ≠ actor →
          (activate bits viaFloat true self w).world.characters r = w.characters r)
      ∧ (∀ other : CModMagicProtectionEffect,
          other.creatorEntityId = self.creatorEntityId →
          other.endDate = self.endDate →
          other.affectedProtection = self.affectedProtection →
          other.modifier1 = self.modifier1 →
          other.modifier2 = self.modifier2 →
          activate bits viaFloat true other w = activate bits viaFloat true self w) := by
  rw [activate_of_success bits viaFloat self w actor hactor]
  refine ⟨construct (w.characters actor).entityRowId
    (TGameCycle.add bits self.endDate w.gameCycle) TEffectFamily.PowerModMagicProtection
    self.affectedProtection (viaFloat self.modifier1) (viaFloat self.modifier2), ?_, rfl, ?_, ?_⟩
  · simp only [World.characters_setCharacter_same, CCharacter.addSabrinaEffect]
  · intro r hr
    exact World.characters_setCharacter_other _ _ _ _ hr
  · intro other hid hend hprot hm1 hm2
    rw [activate_of_success bits viaFloat other w actor (by rw [hid]; exact hactor),
      hend, hprot, hm1, hm2]

/-- C9 at the sample state: the effect created by entity 7 for row 1 lands on
the list of the character of entity 7, whose row is 1. -/
theorem C9_witness :
    Sample.world.charOfEntity Sample.effect.creatorEntityId = some 0
    ∧ ∃ effect : CModMagicProtectionEffect,
        ((activate 32 id true Sample.effect Sample.world).world.characters 0).sabrinaEffects
            = [effect]
        ∧ effect.targetRowId = 1 := by
  refine ⟨by decide, ?_⟩
  obtain ⟨effect, hlist, htarget, _⟩ :=
    C9_activate_binds_and_registers_on_actor 32 id Sample.effect Sample.world 0 (by decide)
  exact ⟨effect, hlist, htarget⟩

/-- C9 as stated fails: the activating effect targets row 2 and was created by
entity 7, whose character is at row 1.  After `activate()` the list of the
character row 2 designates is still empty, and the new effect sits on the list
of the character of row 1, bound to row 1. -/
theorem C9_counterexample :
    Sample.effectOnOther.targetRowId = 2
    ∧ Sample.world.charOfRow 2 = some 1
    ∧ ((activate 32 id true Sample.effectOnOther
          Sample.world).world.characters 1).sabrinaEffects = []
    ∧ ((activate 32 id true Sample.effectOnOther
          Sample.world).world.characters 0).sabrinaEffects.map
            (fun effect => effect.targetRowId) = [1] :=
  ⟨by decide, by decide, by decide, by decide⟩

/-- C10, the code at the failing input: the creator of the sample effect
resolves and the allocation of line 79 fails.  `activate()` is then left by
`std::bad_alloc`: it does not return, and it logs no warning; the world is as
it was.  On the sibling path, where the creator does not resolve, it returns
with one warning logged and the world as it was. -/
theorem C10_activate_allocation_failure_throws :
    Sample.world.charOfEntity Sample.effect.creatorEntityId = some 0
    ∧ (activate 32 id false Sample.effect Sample.world).thrown
        = some CppException.badAlloc
    ∧ (activate 32 id false Sample.effect Sample.world).warnings = []
    ∧ (activate 32 id false Sample.effect Sample.world).world = Sample.world
    ∧ Sample.worldNoActor.charOfEntity Sample.effect.creatorEntityId = none
    ∧ (activate 32 id true Sample.effect Sample.worldNoActor).thrown = none
    ∧ (activate 32 id true Sample.effect Sample.worldNoActor).warnings
        = [Warning.cannotFindActor]
    ∧ (activate 32 id true Sample.effect Sample.worldNoActor).world
        = Sample.worldNoActor :=
  ⟨by decide, by decide, by decide, rfl, by decide, by decide, by decide, rfl⟩

/-- C11, the code at the failing input: the sample effect (modifiers 5 and -2)
has never fired, so the protection of its target stands at its baseline 10 and
the target resolves; `removed()` logs nothing, subtracts 5 and -2 once and
leaves the protection at 7, three below the baseline, not at 10. -/
theorem C11_removed_before_any_firing_goes_below_baseline :
    Sample.world.charOfRow Sample.effect.targetRowId = some 0
    ∧ (Sample.world.characters 0).getUnclampedMagicProtection 3 = 10
    ∧ (removed Sample.effect Sample.world).warnings = []
    ∧ ((removed Sample.effect Sample.world).world.characters
          0).getUnclampedMagicProtection 3 = 10 - (5 + -2)
    ∧ ((removed Sample.effect Sample.world).world.characters
          0).getUnclampedMagicProtection 3 ≠ 10 :=
  ⟨by decide, by decide, by decide, by decide, by decide⟩

/-- C12: `k` firings of `update` on consecutive ticks, the target row being
accessible and resolved to a character on each, all return false and raise the
affected protection by `k * (modifier1 + modifier2)` in total; the effect is
exactly what it was before the firings, so nothing in it records that the
modifiers were applied. -/
theorem C12_firings_accumulate {V : Type} [Ring V] (bits : Nat)
    (event : Option CTimerEvent) (applyEffect : Bool)
    (self : CModMagicProtectionEffect) (w : World V) (player : CharRef) (k : Nat)
    (hchar : w.charOfRow self.targetRowId = some player) :
    (fireOnTicks bits event applyEffect (List.replicate k true) self w).flags
        = List.replicate k false
    ∧ ((fireOnTicks bits event applyEffect (List.replicate k true) self w).world.characters
          player).getUnclampedMagicProtection self.affectedProtection
        = (w.characters player).getUnclampedMagicProtection self.affectedProtection
          + (k : V) * ((self.modifier1 : V) + (self.modifier2 : V))
    ∧ (fireOnTicks bits event applyEffect (List.replicate k true) self w).self = self := by
  induction k generalizing w with
  | zero => simp [fireOnTicks]
  | succ k ih =>
    have hacc : (w.nextTick bits self.targetRowId true).isAccessible self.targetRowId
        = true := by
      simp [World.nextTick]
    have hres : (w.nextTick bits self.targetRowId true).charOfRow self.targetRowId
        = some player := by
      simpa [World.nextTick] using hchar
    have hstep := update_of_resolved self event applyEffect
      (w.nextTick bits self.targetRowId true) player hacc hres
    have hvalue := (update_resolved_effect self event applyEffect
      (w.nextTick bits self.targetRowId true) player hacc hres).2
    rw [hstep] at hvalue
    have h := ih ((w.nextTick bits self.targetRowId true).setCharacter player
      (((w.nextTick bits self.targetRowId true).characters
          player).setUnclampedMagicProtection self.affectedProtection
        (((w.nextTick bits self.targetRowId true).characters
            player).getUnclampedMagicProtection self.affectedProtection
          + (self.modifier1 : V) + (self.modifier2 : V))))
      (by simpa [World.setCharacter] using hres)
    simp only [List.replicate_succ, fireOnTicks, hstep]
    refine ⟨?_, ?_, ?_⟩
    · rw [h.1]
    · rw [h.2.1, hvalue]
      have hsame : ((w.nextTick bits self.targetRowId true).characters
          player).getUnclampedMagicProtection self.affectedProtection
          = (w.characters player).getUnclampedMagicProtection self.affectedProtection := rfl
      rw [hsame, Nat.cast_succ, add_mul, one_mul]
      abel
    · rw [h.2.2]

/-- C12 at the sample state: three firings take the protection from 10 to 19,
that is 10 plus three times 3, each returning false. -/
theorem C12_witness :
    Sample.world.charOfRow Sample.effect.targetRowId = some 0
    ∧ (fireOnTicks 32 none true [true, true, true] Sample.effect Sample.world).flags
        = [false, false, false]
    ∧ ((fireOnTicks 32 none true [true, true, true] Sample.effect
          Sample.world).world.characters 0).getUnclampedMagicProtection 3
        = 10 + 3 * (5 + -2)
    ∧ (fireOnTicks 32 none true [true, true, true] Sample.effect Sample.world).self
        = Sample.effect :=
  ⟨by decide,
    (C12_firings_accumulate 32 none true Sample.effect Sample.world 0 3 (by decide)).1,
    (C12_firings_accumulate 32 none true Sample.effect Sample.world 0 3 (by decide)).2.1,
    (C12_firings_accumulate 32 none true Sample.effect Sample.world 0 3 (by decide)).2.2⟩

/-- C13: take two effects that agree on target row, affected protection and
both modifiers, and two worlds that agree on the dataset's accessibility, on
the player manager's row lookup and on the characters.  Then `update` returns
the same flag and leaves the same characters for both, whatever the family
tags, the timer events and the `applyEffect` flags passed (and whatever the
other fields of the effects and the clock), and so does `removed()`, which
also logs the same warnings. -/
theorem C13_family_and_arguments_do_not_matter {V : Type} [Ring V]
    (e1 e2 : CModMagicProtectionEffect) (event1 event2 : Option CTimerEvent)
    (applyEffect1 applyEffect2 : Bool) (w1 w2 : World V)
    (htarget : e1.targetRowId = e2.targetRowId)
    (hprot : e1.affectedProtection = e2.affectedProtection)
    (hm1 : e1.modifier1 = e2.modifier1)
    (hm2 : e1.modifier2 = e2.modifier2)
    (hacc : w1.isAccessible = w2.isAccessible)
    (hrow : w1.charOfRow = w2.charOfRow)
    (hchars : w1.characters = w2.characters) :
    (update e1 event1 applyEffect1 w1).stillActive
        = (update e2 event2 applyEffect2 w2).stillActive
    ∧ (update e1 event1 applyEffect1 w1).world.characters
        = (update e2 event2 applyEffect2 w2).world.characters
    ∧ (removed e1 w1).world.characters = (removed e2 w2).world.characters
    ∧ (removed e1 w1).warnings = (removed e2 w2).warnings := by
  refine ⟨?_, ?_, ?_, ?_⟩
  · unfold update
    rw [htarget, hacc, hrow]
    cases w2.isAccessible e2.targetRowId <;> cases w2.charOfRow e2.targetRowId <;> rfl
  · unfold update
    rw [htarget, hprot, hm1, hm2, hacc, hrow]
    cases w2.isAccessible e2.targetRowId <;> cases w2.charOfRow e2.targetRowId <;>
      simp [World.setCharacter, hchars]
  · unfold removed
    rw [htarget, hprot, hm1, hm2, hrow]
    cases w2.charOfRow e2.targetRowId <;> simp [World.setCharacter, hchars]
  · unfold removed
    rw [htarget, hrow]
    cases w2.charOfRow e2.targetRowId <;> rfl

/-- C13 at the sample states: an effect of another family, fired with another
event and with `applyEffect` false at another cycle, returns false and takes
the protection to 13 exactly as the sample effect does. -/
theorem C13_witness :
    Sample.effectOtherFamily.family ≠ Sample.effect.family
    ∧ (update Sample.effectOtherFamily (some (CTimerEvent.other 5)) false
        Sample.worldLastCycle).stillActive = false
    ∧ ((update Sample.effectOtherFamily (some (CTimerEvent.other 5)) false
        Sample.worldLastCycle).world.characters 0).getUnclampedMagicProtection 3 = 13
    ∧ (update Sample.effectOtherFamily (some (CTimerEvent.other 5)) false
        Sample.worldLastCycle).stillActive
        = (update Sample.effect none true Sample.world).stillActive
    ∧ (update Sample.effectOtherFamily (some (CTimerEvent.other 5)) false
        Sample.worldLastCycle).world.characters
        = (update Sample.effect none true Sample.world).world.characters :=
  ⟨by decide, by decide, by decide,
    (C13_family_and_arguments_do_not_matter Sample.effectOtherFamily Sample.effect
      (some (CTimerEvent.other 5)) none false true Sample.worldLastCycle Sample.world
      rfl rfl rfl rfl rfl rfl rfl).1,
    (C13_family_and_arguments_do_not_matter Sample.effectOtherFamily Sample.effect
      (some (CTimerEvent.other 5)) none false true Sample.worldLastCycle Sample.world
      rfl rfl rfl rfl rfl rfl rfl).2.1⟩

/-- C14: when the dataset reports the target row as accessible but the player
manager finds no character for it, `update` leaves the whole world as it was,
sets the end timer to one remaining tick with a new end-effect event and
returns true, and the effect and the flag it leaves are those it leaves in any
world where the row is inaccessible; in every world, `update` returns false
exactly when the row is accessible and the player manager resolves it. -/
theorem C14_update_retries_when_unresolved {V : Type} [Ring V]
    (self : CModMagicProtectionEffect) (event : Option CTimerEvent) (applyEffect : Bool)
    (w : World V)
    (hacc : w.isAccessible self.targetRowId = true)
    (hnone : w.charOfRow self.targetRowId = none) :
    (update self event applyEffect w).stillActive = true
    ∧ (update self event applyEffect w).world = w
    ∧ (update self event applyEffect w).self.endTimer.remaining = some 1
    ∧ (update self event applyEffect w).self.endTimer.event = some CTimerEvent.endEffect
    ∧ (∀ w2 : World V, w2.isAccessible self.targetRowId = false →
        (update self event applyEffect w2).self = (update self event applyEffect w).self
        ∧ (update self event applyEffect w2).stillActive
            = (update self event applyEffect w).stillActive
        ∧ (update self event applyEffect w2).world = w2)
    ∧ (∀ w3 : World V,
        (update self event applyEffect w3).stillActive = false
          ↔ (w3.isAccessible self.targetRowId = true
              ∧ ∃ player, w3.charOfRow self.targetRowId = some player)) := by
  have _haccessible := hacc
  rw [update_of_unresolved self event applyEffect w hnone]
  refine ⟨rfl, rfl, rfl, rfl, ?_, ?_⟩
  · intro w2 h2
    rw [update_of_inaccessible self event applyEffect w2 h2]
    exact ⟨rfl, rfl, rfl⟩
  · intro w3
    cases h3 : w3.isAccessible self.targetRowId with
    | false =>
      rw [update_of_inaccessible self event applyEffect w3 h3]
      simp [retry]
    | true =>
      cases h4 : w3.charOfRow self.targetRowId with
      | none =>
        rw [update_of_unresolved self event applyEffect w3 h4]
        simp [retry]
      | some player =>
        rw [update_of_resolved self event applyEffect w3 player h3 h4]
        simp

/-- C14 at the sample state where row 1 is accessible and unknown to the player
manager: the firing returns true, changes nothing and sets one remaining tick. -/
theorem C14_witness :
    Sample.worldUnresolved.isAccessible Sample.effect.targetRowId = true
    ∧ Sample.worldUnresolved.charOfRow Sample.effect.targetRowId = none
    ∧ (update Sample.effect none true Sample.worldUnresolved).stillActive = true
    ∧ (update Sample.effect none true Sample.worldUnresolved).world = Sample.worldUnresolved
    ∧ (update Sample.effect none true Sample.worldUnresolved).self.endTimer.remaining
        = some 1 :=
  ⟨by decide, by decide,
    (C14_update_retries_when_unresolved Sample.effect none true Sample.worldUnresolved
      (by decide) (by decide)).1,
    (C14_update_retries_when_unresolved Sample.effect none true Sample.worldUnresolved
      (by decide) (by decide)).2.1,
    (C14_update_retries_when_unresolved Sample.effect none true Sample.worldUnresolved
      (by decide) (by decide)).2.2.1⟩

end Ryzom
